import Mathlib

/-
Verification of the per-request detection-and-annotation pipeline of the
`presence` face/eye detection overlay server (src/main.go).

The embedding models `handleRequest` (src/main.go:81-153).  External
collaborators (the webcam read, the three cascade classifiers, the JPEG
codecs) are parameters of an `Env` record: the environment supplies the
outcome of each external call, and the handler model records, in order, the
observable operations the handler performs on the frame and the detectors
(a trace of `Op`s) together with the HTTP response it produces.
-/

set_option autoImplicit false

namespace Presence

/-- A point, as Go `image.Point` (src/main.go:102 uses `image.Pt`). -/
structure Pt where
  x : Int
  y : Int
deriving DecidableEq, Repr

/-- An axis-aligned rectangle, as Go `image.Rectangle`: min and max corners. -/
structure Rect where
  minX : Int
  minY : Int
  maxX : Int
  maxY : Int
deriving DecidableEq, Repr

/-- Go `image.Rectangle.Size().X` = `Max.X - Min.X` (the box width). -/
def Rect.sizeX (r : Rect) : Int := r.maxX - r.minX

/-- Go `image.Rectangle.Size().Y` = `Max.Y - Min.Y` (the box height). -/
def Rect.sizeY (r : Rect) : Int := r.maxY - r.minY

/-- A color, as Go `color.RGBA` (fields in R, G, B, A order). -/
structure RGBA where
  r : Nat
  g : Nat
  b : Nat
  a : Nat
deriving DecidableEq, Repr

/-- `color.RGBA{0, 255, 0, 0}` — stroke color of Haar face boxes (src/main.go:99). -/
def green : RGBA := ⟨0, 255, 0, 0⟩

/-- `color.RGBA{0, 0, 255, 0}` — stroke color of eye boxes (src/main.go:113). -/
def blue : RGBA := ⟨0, 0, 255, 0⟩

/-- `color.RGBA{255, 0, 0, 0}` — stroke color of LBP face boxes (src/main.go:122). -/
def red : RGBA := ⟨255, 0, 0, 0⟩

/-- The three loaded cascade classifiers (src/main.go:22-24). -/
inductive Cascade
  | haarFace
  | eye
  | lbpFace
deriving DecidableEq, Repr

/-- Which image data a detector call receives: the color frame `imgMat`, the
grayscale frame `gray`, a sub-region `imgMat.Region(r)` of the color frame, or
a sub-region `gray.Region(r)` of the grayscale frame. -/
inductive ImageRef
  | colorFrame
  | grayFrame
  | colorRegion (r : Rect)
  | grayRegion (r : Rect)
deriving DecidableEq, Repr

/-- One observable operation of the handler, in program order:
`gocv.CvtColor` to grayscale, a `DetectMultiScale` call on a classifier,
`gocv.Rectangle`, `gocv.PutText`, or the `gocv.IMEncode` call. -/
inductive Op
  | cvtColorToGray
  | detect (c : Cascade) (img : ImageRef)
  | rectangle (r : Rect) (c : RGBA) (thickness : Int)
  | putText (s : String) (p : Pt) (c : RGBA) (thickness : Int)
  | imencode
deriving DecidableEq, Repr

/-- The decoded image produced by `image.Decode` (src/main.go:141); only its
bounds matter to the model (`jpeg.Encode` inspects `Bounds()`). -/
structure DecodedImage where
  width : Int
  height : Int
deriving DecidableEq, Repr

/-- The environment: outcomes of every external call `handleRequest` makes.
`readOK` is the boolean result of `webcam.Read` (src/main.go:85); the three
detector fields give the rectangle lists each `DetectMultiScale` call returns
(the eye detector result may depend on which face region it is run over);
`imencodeResult` is `gocv.IMEncode`'s result bytes or failure (src/main.go:130);
`decodeImage` is `image.Decode` (src/main.go:141); `jpegBytes` is the byte
stream `jpeg.Encode` produces for an image it accepts (src/main.go:149). -/
structure Env where
  readOK : Bool
  haarDetect : List Rect
  eyeDetect : Rect → List Rect
  lbpDetect : List Rect
  imencodeResult : Option (List Nat)
  decodeImage : List Nat → Option DecodedImage
  jpegBytes : DecodedImage → List Nat

/-- `minFaceSize = 200` (src/main.go:30). -/
def minFaceSize : Int := 200

/-- `maxFaceSize = 600` (src/main.go:31). -/
def maxFaceSize : Int := 600

/-- `fmt.Sprintf("Size: %dx%d", r.Size().X, r.Size().Y)` (src/main.go:101,124). -/
def sizeLabel (r : Rect) : String :=
  "Size: " ++ toString r.sizeX ++ "x" ++ toString r.sizeY

/-- `image.Pt(r.Min.X, r.Min.Y-10)` — the label anchor (src/main.go:102,125). -/
def labelAnchor (r : Rect) : Pt := ⟨r.minX, r.minY - 10⟩

/-- The size-filter condition of the Haar loop:
`r.Size().X > minFaceSize && r.Size().X < maxFaceSize` (src/main.go:98). -/
def haarAccept (r : Rect) : Prop :=
  r.sizeX > minFaceSize ∧ r.sizeX < maxFaceSize

instance (r : Rect) : Decidable (haarAccept r) := by
  unfold haarAccept; infer_instance

/-- The in-place mutation of `eyeRect` (src/main.go:109-112): the face box
origin `(r.Min.X, r.Min.Y)` is added to all four coordinate fields. -/
def remapEye (face e : Rect) : Rect :=
  { minX := e.minX + face.minX
    minY := e.minY + face.minY
    maxX := e.maxX + face.minX
    maxY := e.maxY + face.minY }

/-- The inner eye loop (src/main.go:108-114): each detected eye rectangle is
remapped and drawn with a blue rectangle of thickness 2.  No label is drawn
for eyes. -/
def eyeOps (face : Rect) (eyes : List Rect) : List Op :=
  eyes.map (fun e => Op.rectangle (remapEye face e) blue 2)

/-- The body of one Haar loop iteration (src/main.go:97-116): if the size
filter passes, draw the green rectangle, draw the green size label, run the
eye detector on `imgMat.Region(r)` — the sub-region of the COLOR frame
(src/main.go:105) — and draw each remapped eye; otherwise do nothing. -/
def haarFaceOps (env : Env) (r : Rect) : List Op :=
  if haarAccept r then
    [Op.rectangle r green 2,
     Op.putText (sizeLabel r) (labelAnchor r) green 2,
     Op.detect Cascade.eye (ImageRef.colorRegion r)] ++ eyeOps r (env.eyeDetect r)
  else []

/-- The Haar loop over all candidate boxes (src/main.go:97-116). -/
def haarLoopOps (env : Env) : List Rect → List Op
  | [] => []
  | r :: rs => haarFaceOps env r ++ haarLoopOps env rs

/-- The body of one LBP loop iteration (src/main.go:120-127): unconditionally
draw the red rectangle and the red size label. -/
def lbpFaceOps (r : Rect) : List Op :=
  [Op.rectangle r red 2,
   Op.putText (sizeLabel r) (labelAnchor r) red 2]

/-- The LBP loop over all boxes (src/main.go:120-127). -/
def lbpLoopOps : List Rect → List Op
  | [] => []
  | r :: rs => lbpFaceOps r ++ lbpLoopOps rs

/-- The full operation trace when the webcam read succeeds
(src/main.go:90-130): grayscale conversion, Haar face detection on `gray`,
the Haar loop, LBP face detection on the same `gray`, the LBP loop, then the
`gocv.IMEncode` call. -/
def pipelineTrace (env : Env) : List Op :=
  [Op.cvtColorToGray, Op.detect Cascade.haarFace ImageRef.grayFrame] ++
  haarLoopOps env env.haarDetect ++
  [Op.detect Cascade.lbpFace ImageRef.grayFrame] ++
  lbpLoopOps env.lbpDetect ++
  [Op.imencode]

/-- The HTTP response: headers set via `w.Header().Set` and the body bytes
written to the response writer. -/
structure Response where
  headers : List (String × String)
  body : List Nat
deriving DecidableEq, Repr

/-- A response with no headers set and no body written. -/
def emptyResponse : Response := ⟨[], []⟩

/-- `jpeg.Encode(w, out, nil)` (src/main.go:149).  The Go standard library
encoder first checks `Bounds().Dx() >= 1<<16 || Bounds().Dy() >= 1<<16` and
fails before writing any byte; otherwise it streams the complete encoding
(the response writer is an in-memory sink that does not fail). -/
def jpegEncode (env : Env) (img : DecodedImage) : Option (List Nat) :=
  if img.width ≥ 65536 ∨ img.height ≥ 65536 then none
  else some (env.jpegBytes img)

/-- The response construction (src/main.go:129-152): if `gocv.IMEncode` fails,
return with nothing written; if `image.Decode` of the encoded bytes fails,
return with nothing written; otherwise set `Content-Type: image/jpeg` and
write the output of `jpeg.Encode` on the decoded image (nothing is written
when that second encoder rejects the image). -/
def pipelineResponse (env : Env) : Response :=
  match env.imencodeResult with
  | none => emptyResponse
  | some bs =>
    match env.decodeImage bs with
    | none => emptyResponse
    | some img =>
      { headers := [("Content-Type", "image/jpeg")]
        body := (jpegEncode env img).getD [] }

/-- The observable outcome of one handler invocation. -/
structure HandlerOut where
  trace : List Op
  response : Response
deriving DecidableEq

/-- `handleRequest` (src/main.go:81-153): if `webcam.Read` fails the handler
returns at once (src/main.go:85-88) — no operation runs and nothing is
written; otherwise the pipeline trace and response are produced. -/
def handleRequest (env : Env) : HandlerOut :=
  if env.readOK then ⟨pipelineTrace env, pipelineResponse env⟩
  else ⟨[], emptyResponse⟩

/-- Containment of one rectangle in another: the inner box's min corner is at
or after the outer's and its max corner at or before the outer's, both axes. -/
def rectInside (inner outer : Rect) : Prop :=
  outer.minX ≤ inner.minX ∧ outer.minY ≤ inner.minY ∧
  inner.maxX ≤ outer.maxX ∧ inner.maxY ≤ outer.maxY

instance (inner outer : Rect) : Decidable (rectInside inner outer) := by
  unfold rectInside; infer_instance

/-! ## Concrete environments used to exercise the model -/

/-- A face candidate of width and height 250 at origin (100, 50): strictly
inside the (200, 600) size window, so the Haar loop accepts it. -/
def face0 : Rect := ⟨100, 50, 350, 300⟩

/-- Environment with one accepted Haar candidate and no other detections. -/
def envC1 : Env :=
  { readOK := true
    haarDetect := [face0]
    eyeDetect := fun _ => []
    lbpDetect := []
    imencodeResult := none
    decodeImage := fun _ => none
    jpegBytes := fun _ => [] }

/-- An ROI-local eye box inside a 250-wide face region. -/
def eye0 : Rect := ⟨40, 60, 100, 100⟩

/-- Environment with one accepted Haar candidate containing one eye. -/
def envC2 : Env :=
  { readOK := true
    haarDetect := [face0]
    eyeDetect := fun _ => [eye0]
    lbpDetect := []
    imencodeResult := none
    decodeImage := fun _ => none
    jpegBytes := fun _ => [] }

/-- Environment where the LBP detector reports one box identical to the
accepted Haar box and one box of width 700, outside the (200, 600) window. -/
def envC4 : Env :=
  { readOK := true
    haarDetect := [face0]
    eyeDetect := fun _ => []
    lbpDetect := [face0, ⟨0, 0, 700, 700⟩]
    imencodeResult := none
    decodeImage := fun _ => none
    jpegBytes := fun _ => [] }

/-- Environment whose webcam read fails. -/
def envC6 : Env :=
  { readOK := false
    haarDetect := [face0]
    eyeDetect := fun _ => [eye0]
    lbpDetect := [face0]
    imencodeResult := some [1, 2, 3]
    decodeImage := fun _ => some ⟨640, 480⟩
    jpegBytes := fun _ => [7, 7] }

/-- Environment whose `gocv.IMEncode` call fails. -/
def envC7 : Env :=
  { readOK := true
    haarDetect := []
    eyeDetect := fun _ => []
    lbpDetect := []
    imencodeResult := none
    decodeImage := fun _ => some ⟨640, 480⟩
    jpegBytes := fun _ => [7, 7] }

/-- The image decoded from the intermediate JPEG bytes in `envC10`. -/
def imgC10 : DecodedImage := ⟨640, 480⟩

/-- Environment where encoding, decoding and re-encoding all succeed. -/
def envC10 : Env :=
  { readOK := true
    haarDetect := []
    eyeDetect := fun _ => []
    lbpDetect := []
    imencodeResult := some [1, 2, 3]
    decodeImage := fun bs => if bs = [1, 2, 3] then some imgC10 else none
    jpegBytes := fun _ => [9, 8, 7] }

/-! ## Helper lemmas: trace membership -/

theorem mem_haarLoopOps {env : Env} {o : Op} {rs : List Rect} :
    o ∈ haarLoopOps env rs ↔ ∃ r, r ∈ rs ∧ o ∈ haarFaceOps env r := by
  induction rs with
  | nil => simp [haarLoopOps]
  | cons r rs ih =>
    simp only [haarLoopOps, List.mem_append, ih, List.mem_cons]
    constructor
    · rintro (h | ⟨r1, hr1, ho⟩)
      · exact ⟨r, Or.inl rfl, h⟩
      · exact ⟨r1, Or.inr hr1, ho⟩
    · rintro ⟨r1, h1 | h1, ho⟩
      · exact Or.inl (h1 ▸ ho)
      · exact Or.inr ⟨r1, h1, ho⟩

theorem mem_lbpLoopOps {o : Op} {rs : List Rect} :
    o ∈ lbpLoopOps rs ↔ ∃ r, r ∈ rs ∧ o ∈ lbpFaceOps r := by
  induction rs with
  | nil => simp [lbpLoopOps]
  | cons r rs ih =>
    simp only [lbpLoopOps, List.mem_append, ih, List.mem_cons]
    constructor
    · rintro (h | ⟨r1, hr1, ho⟩)
      · exact ⟨r, Or.inl rfl, h⟩
      · exact ⟨r1, Or.inr hr1, ho⟩
    · rintro ⟨r1, h1 | h1, ho⟩
      · exact Or.inl (h1 ▸ ho)
      · exact Or.inr ⟨r1, h1, ho⟩

theorem trace_of_readOK {env : Env} (h : env.readOK = true) :
    (handleRequest env).trace = pipelineTrace env := by
  simp [handleRequest, h]

theorem response_of_readOK {env : Env} (h : env.readOK = true) :
    (handleRequest env).response = pipelineResponse env := by
  simp [handleRequest, h]


theorem mem_haarFaceOps {env : Env} {o : Op} {r : Rect} :
    o ∈ haarFaceOps env r ↔
      haarAccept r ∧
        (o = Op.rectangle r green 2 ∨
         o = Op.putText (sizeLabel r) (labelAnchor r) green 2 ∨
         o = Op.detect Cascade.eye (ImageRef.colorRegion r) ∨
         ∃ e, e ∈ env.eyeDetect r ∧ o = Op.rectangle (remapEye r e) blue 2) := by
  by_cases hacc : haarAccept r
  · simp [haarFaceOps, if_pos hacc, eyeOps, List.mem_map, hacc, or_assoc, eq_comm]
  · simp [haarFaceOps, if_neg hacc, hacc]

theorem mem_lbpFaceOps {o : Op} {r : Rect} :
    o ∈ lbpFaceOps r ↔
      o = Op.rectangle r red 2 ∨
      o = Op.putText (sizeLabel r) (labelAnchor r) red 2 := by
  simp [lbpFaceOps]

theorem mem_pipelineTrace {env : Env} {o : Op} :
    o ∈ pipelineTrace env ↔
      o = Op.cvtColorToGray ∨
      o = Op.detect Cascade.haarFace ImageRef.grayFrame ∨
      (∃ r, r ∈ env.haarDetect ∧ o ∈ haarFaceOps env r) ∨
      o = Op.detect Cascade.lbpFace ImageRef.grayFrame ∨
      (∃ r, r ∈ env.lbpDetect ∧ o ∈ lbpFaceOps r) ∨
      o = Op.imencode := by
  simp [pipelineTrace, List.mem_append, mem_haarLoopOps, mem_lbpLoopOps, or_assoc]

/-- A detect call on the eye classifier appears in the trace exactly for the
regions of accepted Haar candidates. -/
theorem detect_eye_mem_trace {env : Env} {img : ImageRef} :
    Op.detect Cascade.eye img ∈ pipelineTrace env ↔
      ∃ r, r ∈ env.haarDetect ∧ haarAccept r ∧ img = ImageRef.colorRegion r := by
  simp only [mem_pipelineTrace, mem_haarFaceOps, mem_lbpFaceOps]
  constructor
  · rintro (h | h | ⟨r, hr, hacc, (h | h | h | ⟨e, he, h⟩)⟩ | h | ⟨r, hr, (h | h)⟩ | h) <;>
      simp_all
  · rintro ⟨r, hr, hacc, rfl⟩
    exact Or.inr (Or.inr (Or.inl ⟨r, hr, hacc, Or.inr (Or.inr (Or.inl rfl))⟩))

/-- Green rectangles appear in the trace exactly for accepted Haar candidates.
(Green differs from the blue of eye boxes and the red of LBP boxes.) -/
theorem rectangle_green_mem_trace {env : Env} {b : Rect} :
    Op.rectangle b green 2 ∈ pipelineTrace env ↔
      b ∈ env.haarDetect ∧ haarAccept b := by
  simp only [mem_pipelineTrace, mem_haarFaceOps, mem_lbpFaceOps]
  constructor
  · rintro (h | h | ⟨r, hr, hacc, (h | h | h | ⟨e, he, h⟩)⟩ | h | ⟨r, hr, (h | h)⟩ | h) <;>
      simp_all [green, blue, red]
  · rintro ⟨hb, hacc⟩
    exact Or.inr (Or.inr (Or.inl ⟨b, hb, hacc, Or.inl rfl⟩))

/-- Every text-drawing operation in the trace uses green or red ink: the eye
loop draws no labels at all. -/
theorem putText_color_green_or_red {env : Env} {s : String} {p : Pt} {c : RGBA}
    {t : Int} (h : Op.putText s p c t ∈ pipelineTrace env) :
    c = green ∨ c = red := by
  simp only [mem_pipelineTrace, mem_haarFaceOps, mem_lbpFaceOps] at h
  rcases h with h | h | ⟨r, hr, hacc, (h | h | h | ⟨e, he, h⟩)⟩ | h | ⟨r, hr, (h | h)⟩ | h <;>
    simp_all

/-! ## Claim theorems -/

/-- Claim C1: a Haar face candidate box is accepted by the pipeline — drawn
in green, labelled, and searched for eyes — exactly when
`minFaceSize < width < maxFaceSize` with strict inequality on both sides;
a candidate at or outside either boundary gets no green rectangle and no eye
search on its region: it is silently dropped. -/
theorem C1_haar_size_filter_strict (env : Env) (r : Rect)
    (hread : env.readOK = true) (hr : r ∈ env.haarDetect) :
    ((minFaceSize < r.sizeX ∧ r.sizeX < maxFaceSize) ↔
       (Op.rectangle r green 2 ∈ (handleRequest env).trace ∧
        Op.putText (sizeLabel r) (labelAnchor r) green 2 ∈ (handleRequest env).trace ∧
        Op.detect Cascade.eye (ImageRef.colorRegion r) ∈ (handleRequest env).trace)) ∧
    (¬(minFaceSize < r.sizeX ∧ r.sizeX < maxFaceSize) →
       Op.rectangle r green 2 ∉ (handleRequest env).trace ∧
       Op.detect Cascade.eye (ImageRef.colorRegion r) ∉ (handleRequest env).trace) := by
  rw [trace_of_readOK hread]
  constructor
  · constructor
    · intro hacc
      have hacc : haarAccept r := hacc
      refine ⟨rectangle_green_mem_trace.mpr ⟨hr, hacc⟩, ?_, ?_⟩
      · exact mem_pipelineTrace.mpr (Or.inr (Or.inr (Or.inl
          ⟨r, hr, mem_haarFaceOps.mpr ⟨hacc, Or.inr (Or.inl rfl)⟩⟩)))
      · exact detect_eye_mem_trace.mpr ⟨r, hr, hacc, rfl⟩
    · rintro ⟨-, -, hdet⟩
      obtain ⟨r1, -, hacc, hEq⟩ := detect_eye_mem_trace.mp hdet
      injection hEq with h1
      exact h1 ▸ hacc
  · intro hrej
    constructor
    · intro hmem
      exact hrej (rectangle_green_mem_trace.mp hmem).2
    · intro hmem
      obtain ⟨r1, -, hacc, hEq⟩ := detect_eye_mem_trace.mp hmem
      injection hEq with h1
      exact hrej (h1 ▸ hacc)

/-- Claim C1 witness: the theorem applied to the concrete environment with
one Haar candidate of width 250. -/
theorem C1_haar_size_filter_strict_witness :
    envC1.readOK = true ∧ face0 ∈ envC1.haarDetect ∧
      (((minFaceSize < face0.sizeX ∧ face0.sizeX < maxFaceSize) ↔
          (Op.rectangle face0 green 2 ∈ (handleRequest envC1).trace ∧
           Op.putText (sizeLabel face0) (labelAnchor face0) green 2 ∈ (handleRequest envC1).trace ∧
           Op.detect Cascade.eye (ImageRef.colorRegion face0) ∈ (handleRequest envC1).trace)) ∧
       (¬(minFaceSize < face0.sizeX ∧ face0.sizeX < maxFaceSize) →
          Op.rectangle face0 green 2 ∉ (handleRequest envC1).trace ∧
          Op.detect Cascade.eye (ImageRef.colorRegion face0) ∉ (handleRequest envC1).trace)) :=
  ⟨rfl, by decide, C1_haar_size_filter_strict envC1 face0 rfl (by decide)⟩

/-- Claim C2: every eye box the eye detector returns in ROI-local coordinates
is emitted (drawn) with the parent face box origin (Min.X, Min.Y) added to
all four coordinate fields: Min.X, Min.Y, Max.X and Max.Y. -/
theorem C2_eye_remap_all_four_fields (env : Env) (face e : Rect)
    (hread : env.readOK = true) (hface : face ∈ env.haarDetect)
    (hacc : minFaceSize < face.sizeX ∧ face.sizeX < maxFaceSize)
    (he : e ∈ env.eyeDetect face) :
    Op.rectangle
      { minX := e.minX + face.minX, minY := e.minY + face.minY,
        maxX := e.maxX + face.minX, maxY := e.maxY + face.minY } blue 2 ∈
      (handleRequest env).trace := by
  rw [trace_of_readOK hread]
  refine mem_pipelineTrace.mpr (Or.inr (Or.inr (Or.inl ⟨face, hface, ?_⟩)))
  exact mem_haarFaceOps.mpr ⟨hacc, Or.inr (Or.inr (Or.inr ⟨e, he, rfl⟩))⟩

/-- Claim C2 witness: the theorem applied to a concrete accepted face at
origin (100, 50) with one ROI-local eye box. -/
theorem C2_eye_remap_all_four_fields_witness :
    envC2.readOK = true ∧ face0 ∈ envC2.haarDetect ∧
      (minFaceSize < face0.sizeX ∧ face0.sizeX < maxFaceSize) ∧
      eye0 ∈ envC2.eyeDetect face0 ∧
      Op.rectangle
        { minX := eye0.minX + face0.minX, minY := eye0.minY + face0.minY,
          maxX := eye0.maxX + face0.minX, maxY := eye0.maxY + face0.minY } blue 2 ∈
        (handleRequest envC2).trace :=
  ⟨rfl, by decide, by decide, by decide,
   C2_eye_remap_all_four_fields envC2 face0 eye0 rfl (by decide) (by decide) (by decide)⟩

/-- Claim C4: the LBP face detector pass runs on the same grayscale frame
whenever a frame was read, whatever the Haar pass found, and every LBP box is
drawn and labelled in red with no size filter and no deduplication: the
quantification over arbitrary `env.lbpDetect` covers boxes overlapping a Haar
detection or outside the (minFaceSize, maxFaceSize) window. -/
theorem C4_lbp_unconditional_unfiltered (env : Env) (hread : env.readOK = true) :
    Op.detect Cascade.lbpFace ImageRef.grayFrame ∈ (handleRequest env).trace ∧
    ∀ r, r ∈ env.lbpDetect →
      Op.rectangle r red 2 ∈ (handleRequest env).trace ∧
      Op.putText (sizeLabel r) (labelAnchor r) red 2 ∈ (handleRequest env).trace := by
  rw [trace_of_readOK hread]
  refine ⟨mem_pipelineTrace.mpr (Or.inr (Or.inr (Or.inr (Or.inl rfl)))), ?_⟩
  intro r hr
  constructor
  · exact mem_pipelineTrace.mpr (Or.inr (Or.inr (Or.inr (Or.inr (Or.inl
      ⟨r, hr, mem_lbpFaceOps.mpr (Or.inl rfl)⟩)))))
  · exact mem_pipelineTrace.mpr (Or.inr (Or.inr (Or.inr (Or.inr (Or.inl
      ⟨r, hr, mem_lbpFaceOps.mpr (Or.inr rfl)⟩)))))

/-- Claim C4 witness: in an environment whose LBP list holds a duplicate of
the accepted Haar box and a width-700 box (outside the size window), both are
still annotated in red. -/
theorem C4_lbp_unconditional_unfiltered_witness :
    envC4.readOK = true ∧
      (⟨0, 0, 700, 700⟩ : Rect) ∈ envC4.lbpDetect ∧ face0 ∈ envC4.lbpDetect ∧
      Op.detect Cascade.lbpFace ImageRef.grayFrame ∈ (handleRequest envC4).trace ∧
      Op.rectangle ⟨0, 0, 700, 700⟩ red 2 ∈ (handleRequest envC4).trace ∧
      Op.rectangle face0 red 2 ∈ (handleRequest envC4).trace :=
  ⟨rfl, by decide, by decide,
   (C4_lbp_unconditional_unfiltered envC4 rfl).1,
   ((C4_lbp_unconditional_unfiltered envC4 rfl).2 ⟨0, 0, 700, 700⟩ (by decide)).1,
   ((C4_lbp_unconditional_unfiltered envC4 rfl).2 face0 (by decide)).1⟩

/-- Claim C6: when the webcam read fails the handler returns at once: the
trace is empty — no grayscale conversion, no detector call, no drawing, no
encode attempt — and the response has no headers and no body. -/
theorem C6_read_failure_aborts (env : Env) (hread : env.readOK = false) :
    (handleRequest env).trace = [] ∧
    (handleRequest env).response.headers = [] ∧
    (handleRequest env).response.body = [] := by
  simp [handleRequest, hread, emptyResponse]

/-- Claim C6 witness: the theorem applied to a concrete environment whose
read fails although every detector would have reported boxes. -/
theorem C6_read_failure_aborts_witness :
    envC6.readOK = false ∧
      (handleRequest envC6).trace = [] ∧
      (handleRequest envC6).response.headers = [] ∧
      (handleRequest envC6).response.body = [] :=
  ⟨rfl, C6_read_failure_aborts envC6 rfl⟩

/-- Claim C7: if `gocv.IMEncode` fails nothing at all is written; and in
every case the body is either empty or the complete output of the final JPEG
encoder on the successfully decoded image — never a partial image. -/
theorem C7_encode_failure_no_partial_body (env : Env) (hread : env.readOK = true) :
    (env.imencodeResult = none →
       (handleRequest env).response = emptyResponse) ∧
    ((handleRequest env).response.body = [] ∨
      ∃ bs img, env.imencodeResult = some bs ∧ env.decodeImage bs = some img ∧
        jpegEncode env img = some ((handleRequest env).response.body) ∧
        (handleRequest env).response.body = env.jpegBytes img) := by
  rw [response_of_readOK hread]
  rcases henc : env.imencodeResult with _ | bs
  · exact ⟨fun _ => by simp [pipelineResponse, henc],
      Or.inl (by simp [pipelineResponse, henc, emptyResponse])⟩
  · refine ⟨fun h => by simp [henc] at h, ?_⟩
    rcases hdec : env.decodeImage bs with _ | img
    · exact Or.inl (by simp [pipelineResponse, henc, hdec, emptyResponse])
    · by_cases hsz : img.width ≥ 65536 ∨ img.height ≥ 65536
      · exact Or.inl (by simp [pipelineResponse, henc, hdec, jpegEncode, hsz])
      · refine Or.inr ⟨bs, img, rfl, hdec, ?_, ?_⟩ <;>
          simp [pipelineResponse, henc, hdec, jpegEncode, hsz]

/-- Claim C7 witness: with `gocv.IMEncode` failing, the response is empty. -/
theorem C7_encode_failure_no_partial_body_witness :
    envC7.readOK = true ∧ envC7.imencodeResult = none ∧
      (handleRequest envC7).response = emptyResponse :=
  ⟨rfl, rfl, (C7_encode_failure_no_partial_body envC7 rfl).1 rfl⟩

/-- Claim C9: under the assumption that the eye detector returns ROI-local
boxes within the region bounds (nonnegative min corner, max corner at most
the region width and height), the remapped frame-global eye box — which the
pipeline draws — lies entirely inside its parent face box, and hence inside
any frame containing that face box. -/
theorem C9_eye_box_inside_face (env : Env) (face e : Rect)
    (hread : env.readOK = true) (hface : face ∈ env.haarDetect)
    (hacc : haarAccept face) (he : e ∈ env.eyeDetect face)
    (hx0 : 0 ≤ e.minX) (hy0 : 0 ≤ e.minY)
    (hxw : e.maxX ≤ face.sizeX) (hyh : e.maxY ≤ face.sizeY) :
    Op.rectangle (remapEye face e) blue 2 ∈ (handleRequest env).trace ∧
    rectInside (remapEye face e) face ∧
    ∀ frame, rectInside face frame → rectInside (remapEye face e) frame := by
  refine ⟨?_, ?_, ?_⟩
  · rw [trace_of_readOK hread]
    exact mem_pipelineTrace.mpr (Or.inr (Or.inr (Or.inl ⟨face, hface,
      mem_haarFaceOps.mpr ⟨hacc, Or.inr (Or.inr (Or.inr ⟨e, he, rfl⟩))⟩⟩)))
  · simp only [rectInside, remapEye, Rect.sizeX, Rect.sizeY] at *
    omega
  · intro frame hf
    simp only [rectInside, remapEye, Rect.sizeX, Rect.sizeY] at *
    omega

/-- Claim C9 witness: the theorem applied to the concrete face at (100, 50)
and a concrete in-bounds ROI-local eye box, with the frame instantiated to a
640x480 frame rectangle containing the face. -/
theorem C9_eye_box_inside_face_witness :
    envC2.readOK = true ∧ face0 ∈ envC2.haarDetect ∧ haarAccept face0 ∧
      eye0 ∈ envC2.eyeDetect face0 ∧
      (0 ≤ eye0.minX ∧ 0 ≤ eye0.minY ∧
        eye0.maxX ≤ face0.sizeX ∧ eye0.maxY ≤ face0.sizeY) ∧
      Op.rectangle (remapEye face0 eye0) blue 2 ∈ (handleRequest envC2).trace ∧
      rectInside (remapEye face0 eye0) face0 ∧
      rectInside (remapEye face0 eye0) ⟨0, 0, 640, 480⟩ :=
  ⟨rfl, by decide, by decide, by decide, by decide,
   (C9_eye_box_inside_face envC2 face0 eye0 rfl (by decide) (by decide)
      (by decide) (by decide) (by decide) (by decide) (by decide)).1,
   (C9_eye_box_inside_face envC2 face0 eye0 rfl (by decide) (by decide)
      (by decide) (by decide) (by decide) (by decide) (by decide)).2.1,
   (C9_eye_box_inside_face envC2 face0 eye0 rfl (by decide) (by decide)
      (by decide) (by decide) (by decide) (by decide) (by decide)).2.2
     ⟨0, 0, 640, 480⟩ (by decide)⟩

/-- Claim C10: the body is never the `gocv.IMEncode` bytes verbatim: the
handler decodes them back into an image and re-encodes that image with the
standard-library JPEG encoder; if the intermediate decode fails the request
aborts with no body and no Content-Type header, and only after a successful
decode is the Content-Type header set and the re-encoded image written. -/
theorem C10_decode_reencode (env : Env) (bs : List Nat)
    (hread : env.readOK = true) (henc : env.imencodeResult = some bs) :
    (env.decodeImage bs = none →
       (handleRequest env).response.headers = [] ∧
       (handleRequest env).response.body = []) ∧
    (∀ img, env.decodeImage bs = some img →
       (handleRequest env).response.headers = [("Content-Type", "image/jpeg")] ∧
       (handleRequest env).response.body = (jpegEncode env img).getD []) := by
  rw [response_of_readOK hread]
  constructor
  · intro hdec
    simp [pipelineResponse, henc, hdec, emptyResponse]
  · intro img hdec
    simp [pipelineResponse, henc, hdec]

/-- Claim C10 witness: the theorem applied to the environment where the
intermediate bytes decode to a 640x480 image; the body is the second
encoder's output on that image, not the intermediate bytes. -/
theorem C10_decode_reencode_witness :
    envC10.readOK = true ∧ envC10.imencodeResult = some [1, 2, 3] ∧
      envC10.decodeImage [1, 2, 3] = some imgC10 ∧
      (handleRequest envC10).response.headers = [("Content-Type", "image/jpeg")] ∧
      (handleRequest envC10).response.body = (jpegEncode envC10 imgC10).getD [] :=
  ⟨rfl, rfl, by decide,
   ((C10_decode_reencode envC10 [1, 2, 3] rfl rfl).2 imgC10 (by decide)).1,
   ((C10_decode_reencode envC10 [1, 2, 3] rfl rfl).2 imgC10 (by decide)).2⟩

/-- No detector call in the trace ever receives a grayscale sub-region: the
only `Region` call in the handler is `imgMat.Region(r)` on the color frame
(src/main.go:105). -/
theorem no_detect_on_gray_region {env : Env} (c : Cascade) (r : Rect) :
    Op.detect c (ImageRef.grayRegion r) ∉ pipelineTrace env := by
  intro h
  simp only [mem_pipelineTrace, mem_haarFaceOps, mem_lbpFaceOps] at h
  rcases h with h | h | ⟨r1, hr1, hacc, (h | h | h | ⟨e, he, h⟩)⟩ | h |
      ⟨r1, hr1, (h | h)⟩ | h <;> simp_all

/-- Claim C3 counterexample: in the concrete environment with one accepted
Haar candidate, the eye detector is invoked on the COLOR sub-region of the
frame — `imgMat.Region(r)`, src/main.go:105 — and not on its grayscale
sub-region, refuting the claim that no detector is ever given 3-channel
color pixel data. -/
theorem C3_counterexample :
    Op.detect Cascade.eye (ImageRef.colorRegion face0) ∈ (handleRequest envC1).trace ∧
    Op.detect Cascade.eye (ImageRef.grayRegion face0) ∉ (handleRequest envC1).trace := by
  decide

/-- Claim C3 amended: the two face detectors are invoked on the grayscale
frame, but for every accepted Haar face box the eye detector is invoked on
the color (3-channel) sub-region of the frame bounded by that box; no
detector is ever given a grayscale sub-region. -/
theorem C3_eye_detector_runs_on_color_region (env : Env) (face : Rect)
    (hread : env.readOK = true) (hface : face ∈ env.haarDetect)
    (hacc : haarAccept face) :
    Op.detect Cascade.haarFace ImageRef.grayFrame ∈ (handleRequest env).trace ∧
    Op.detect Cascade.lbpFace ImageRef.grayFrame ∈ (handleRequest env).trace ∧
    Op.detect Cascade.eye (ImageRef.colorRegion face) ∈ (handleRequest env).trace ∧
    ∀ c r, Op.detect c (ImageRef.grayRegion r) ∉ (handleRequest env).trace := by
  rw [trace_of_readOK hread]
  refine ⟨mem_pipelineTrace.mpr (Or.inr (Or.inl rfl)),
    mem_pipelineTrace.mpr (Or.inr (Or.inr (Or.inr (Or.inl rfl)))),
    detect_eye_mem_trace.mpr ⟨face, hface, hacc, rfl⟩,
    fun c r => no_detect_on_gray_region c r⟩

/-- Claim C3 amended witness: the amended theorem applied to the concrete
environment with one accepted Haar candidate, the universally quantified part
instantiated at the eye classifier and that candidate's region. -/
theorem C3_eye_detector_runs_on_color_region_witness :
    envC1.readOK = true ∧ face0 ∈ envC1.haarDetect ∧ haarAccept face0 ∧
      Op.detect Cascade.haarFace ImageRef.grayFrame ∈ (handleRequest envC1).trace ∧
      Op.detect Cascade.lbpFace ImageRef.grayFrame ∈ (handleRequest envC1).trace ∧
      Op.detect Cascade.eye (ImageRef.colorRegion face0) ∈ (handleRequest envC1).trace ∧
      Op.detect Cascade.eye (ImageRef.grayRegion face0) ∉ (handleRequest envC1).trace :=
  ⟨rfl, by decide, by decide,
   (C3_eye_detector_runs_on_color_region envC1 face0 rfl (by decide) (by decide)).1,
   (C3_eye_detector_runs_on_color_region envC1 face0 rfl (by decide) (by decide)).2.1,
   (C3_eye_detector_runs_on_color_region envC1 face0 rfl (by decide) (by decide)).2.2.1,
   (C3_eye_detector_runs_on_color_region envC1 face0 rfl (by decide) (by decide)).2.2.2
     Cascade.eye face0⟩

/-- Claim C5 counterexample: in the concrete environment with one accepted
face containing one eye, the eye box is emitted (its blue rectangle is drawn)
but no size label is drawn for it — the `Size: 60x40` text anchored 10 pixels
above the eye box top-left in blue is absent from the trace — refuting the
claim that every emitted detection gets a label. -/
theorem C5_counterexample :
    Op.rectangle (remapEye face0 eye0) blue 2 ∈ (handleRequest envC2).trace ∧
    Op.putText (sizeLabel (remapEye face0 eye0)) (labelAnchor (remapEye face0 eye0))
        blue 2 ∉ (handleRequest envC2).trace := by
  decide

/-- Claim C5 amended: HaarFace and LBPFace detections are each drawn as a
rectangle plus a `Size: widthxheight` label anchored 10 pixels above the box
top-left in the matching color (green for HaarFace, red for LBPFace); Eye
detections are drawn as a blue rectangle only, with no label; no blue text is
ever drawn. -/
theorem C5_annotation_per_source (env : Env) (hread : env.readOK = true) :
    (∀ r, r ∈ env.haarDetect → haarAccept r →
       Op.rectangle r green 2 ∈ (handleRequest env).trace ∧
       Op.putText (sizeLabel r) (labelAnchor r) green 2 ∈ (handleRequest env).trace) ∧
    (∀ r, r ∈ env.lbpDetect →
       Op.rectangle r red 2 ∈ (handleRequest env).trace ∧
       Op.putText (sizeLabel r) (labelAnchor r) red 2 ∈ (handleRequest env).trace) ∧
    (∀ face, face ∈ env.haarDetect → haarAccept face →
       ∀ e, e ∈ env.eyeDetect face →
         Op.rectangle (remapEye face e) blue 2 ∈ (handleRequest env).trace) ∧
    (∀ s p t, Op.putText s p blue t ∉ (handleRequest env).trace) := by
  rw [trace_of_readOK hread]
  refine ⟨?_, ?_, ?_, ?_⟩
  · intro r hr hacc
    exact ⟨rectangle_green_mem_trace.mpr ⟨hr, hacc⟩,
      mem_pipelineTrace.mpr (Or.inr (Or.inr (Or.inl
        ⟨r, hr, mem_haarFaceOps.mpr ⟨hacc, Or.inr (Or.inl rfl)⟩⟩)))⟩
  · intro r hr
    exact ⟨mem_pipelineTrace.mpr (Or.inr (Or.inr (Or.inr (Or.inr (Or.inl
        ⟨r, hr, mem_lbpFaceOps.mpr (Or.inl rfl)⟩))))),
      mem_pipelineTrace.mpr (Or.inr (Or.inr (Or.inr (Or.inr (Or.inl
        ⟨r, hr, mem_lbpFaceOps.mpr (Or.inr rfl)⟩)))))⟩
  · intro face hface hacc e he
    exact mem_pipelineTrace.mpr (Or.inr (Or.inr (Or.inl ⟨face, hface,
      mem_haarFaceOps.mpr ⟨hacc, Or.inr (Or.inr (Or.inr ⟨e, he, rfl⟩))⟩⟩)))
  · intro s p t hmem
    rcases putText_color_green_or_red hmem with h | h <;> simp [green, red, blue] at h

/-- Claim C5 amended witness: the amended theorem applied to the concrete
environment with one accepted face and one eye; the no-blue-text part is
instantiated at the eye box label. -/
theorem C5_annotation_per_source_witness :
    envC2.readOK = true ∧ face0 ∈ envC2.haarDetect ∧ haarAccept face0 ∧
      eye0 ∈ envC2.eyeDetect face0 ∧
      Op.rectangle face0 green 2 ∈ (handleRequest envC2).trace ∧
      Op.putText (sizeLabel face0) (labelAnchor face0) green 2 ∈ (handleRequest envC2).trace ∧
      Op.rectangle (remapEye face0 eye0) blue 2 ∈ (handleRequest envC2).trace ∧
      Op.putText (sizeLabel (remapEye face0 eye0)) (labelAnchor (remapEye face0 eye0))
          blue 2 ∉ (handleRequest envC2).trace :=
  ⟨rfl, by decide, by decide, by decide,
   ((C5_annotation_per_source envC2 rfl).1 face0 (by decide) (by decide)).1,
   ((C5_annotation_per_source envC2 rfl).1 face0 (by decide) (by decide)).2,
   (C5_annotation_per_source envC2 rfl).2.2.1 face0 (by decide) (by decide) eye0 (by decide),
   (C5_annotation_per_source envC2 rfl).2.2.2 (sizeLabel (remapEye face0 eye0))
     (labelAnchor (remapEye face0 eye0)) 2⟩

end Presence
